import Mathlib

/-!
# Appointment Management API — verification development

A shallow embedding of the appointment-management HTTP service
(Express + SQLite) and proofs about its behaviour.

Embedded components:
* the Validation Gate of `router.post("/")` in `routes/appointments.js`
  (the four `body(...)` validator chains and `validationResult`);
* the create workflow (patient-existence query, conflict query, insert,
  201 response shaping) of the same handler;
* the read path: `router.get("/")` (list with optional `patientId` /
  `date` query filters, ordered by date then time) and
  `router.get("/:id")` (single lookup joined with patient details);
* `initializeDatabase` of `database/db.js` (idempotent schema creation
  plus conditional seeding of sample patients).

Strings are manipulated at the `List Char` level so that every
definition evaluates by kernel reduction on concrete inputs.
-/

namespace ApptAPI

/-! ## Character-level string helpers

ASCII codes used below: '0'..'9' are 48..57, ':' is 58, '-' is 45.
-/

/-- `c` is an ASCII decimal digit ('0'..'9', codes 48..57). -/
def isDigitChar (c : Char) : Bool := 48 ≤ c.toNat && c.toNat ≤ 57

/-- Numeric value of a digit character. -/
def digitVal (c : Char) : Nat := c.toNat - 48

/-- Value of a list of digit characters read in base 10. -/
def decimalValue (cs : List Char) : Nat :=
  cs.foldl (fun n c => n * 10 + digitVal c) 0

/-- Strip leading and trailing whitespace from a character list. -/
def trimChars (cs : List Char) : List Char :=
  ((cs.dropWhile Char.isWhitespace).reverse.dropWhile Char.isWhitespace).reverse

/-- JavaScript `String.prototype.trim` (the `.trim()` sanitizer of the
`Reason` chain), on ASCII whitespace. -/
def jsTrim (s : String) : String := ⟨trimChars s.data⟩

/-! ## Data model

`patients` and `appointments` rows as created by the DDL in
`database/db.js` / `scripts/create-tables.sql`.  The `created_at`
columns are server clock values irrelevant to every property proved
here and are omitted.  `id` columns are `INTEGER PRIMARY KEY
AUTOINCREMENT`; the next value the storage will assign to an
appointment is carried in the state as `nextAppointmentId`.
-/

structure Patient where
  id : Nat
  name : String
  email : String
  phone : String
deriving DecidableEq

structure Appointment where
  id : Nat
  patient_id : Nat
  appointment_date : String
  appointment_time : String
  reason : String
  status : String
deriving DecidableEq

structure DBState where
  patients : List Patient
  appointments : List Appointment
  nextAppointmentId : Nat
deriving DecidableEq

/-- The JSON body of `POST /api/appointments`, each field in its textual
wire form (express-validator stringifies a field before validating it). -/
structure CreateRequest where
  PatientId : String
  AppointmentDate : String
  AppointmentTime : String
  Reason : String
deriving DecidableEq

/-! ## Validation Gate

`router.post("/")` runs four validator chains; `validationResult`
collects one error (message + field) per failed rule, in chain order.
-/

/-- One entry of `errors.array()`: the `msg` and the field (`path`) it
concerns. -/
structure FieldError where
  field : String
  msg : String
deriving DecidableEq

/-- `body("PatientId").isInt({ min: 1 })`: the text is an optionally
signed decimal integer (leading zeroes allowed) whose value is ≥ 1. -/
def isIntMin1 (s : String) : Bool :=
  match s.data with
  | [] => false
  | '+' :: rest => !rest.isEmpty && rest.all isDigitChar && 1 ≤ decimalValue rest
  | '-' :: _ => false
  | cs => cs.all isDigitChar && 1 ≤ decimalValue cs

/-- Hour matched by the two-character branch of the regex
`([0-1]?[0-9]|2[0-3])`: either `[0-1][0-9]` or `2[0-3]`. -/
def hourOkTwo (h0 h1 : Char) : Bool :=
  ((h0.toNat = 48 || h0.toNat = 49) && isDigitChar h1) ||
    (h0.toNat = 50 && 48 ≤ h1.toNat && h1.toNat ≤ 51)

/-- Minutes matched by `[0-5][0-9]`. -/
def minutesOk (m0 m1 : Char) : Bool :=
  (48 ≤ m0.toNat && m0.toNat ≤ 53) && isDigitChar m1

/-- The anchored regex `^([0-1]?[0-9]|2[0-3]):[0-5][0-9]$` of
`body("AppointmentTime").matches(...)`, as a predicate on the character
list: either `[0-9]:[0-5][0-9]` (the optional `[0-1]?` absent) or
`([0-1][0-9]|2[0-3]):[0-5][0-9]`. -/
def timeRegexChars : List Char → Bool
  | [h, c, m0, m1] => isDigitChar h && c.toNat = 58 && minutesOk m0 m1
  | [h0, h1, c, m0, m1] => hourOkTwo h0 h1 && c.toNat = 58 && minutesOk m0 m1
  | _ => false

/-- `body("AppointmentTime").matches(/^([0-1]?[0-9]|2[0-3]):[0-5][0-9]$/)`. -/
def appointmentTimeOk (s : String) : Bool := timeRegexChars s.data

/-- Gregorian leap year. -/
def isLeap (y : Nat) : Bool :=
  (y % 4 = 0 && !(y % 100 = 0)) || y % 400 = 0

/-- Number of days of month `m` of year `y`. -/
def daysInMonth (y m : Nat) : Nat :=
  if m = 2 then (if isLeap y then 29 else 28)
  else if m = 4 || m = 6 || m = 9 || m = 11 then 30
  else 31

/-- Modelled from the spec: `body("AppointmentDate").isDate()` delegates
to the `isDate` routine of the `validator` dependency, whose source is
not part of this repository.  The spec states the rule it enforces:
"date: must be a valid calendar date in `YYYY-MM-DD` form."  We model
exactly that: four digits, '-', two digits, '-', two digits, with month
in 1..12 and day within the month's length. -/
def appointmentDateOk (s : String) : Bool :=
  match s.data with
  | [y1, y2, y3, y4, ca, m1, m2, cb, d1, d2] =>
    ca.toNat = 45 && cb.toNat = 45 &&
      (isDigitChar y1 && isDigitChar y2 && isDigitChar y3 && isDigitChar y4 &&
        isDigitChar m1 && isDigitChar m2 && isDigitChar d1 && isDigitChar d2) &&
      (let y := decimalValue [y1, y2, y3, y4]
       let m := decimalValue [m1, m2]
       let d := decimalValue [d1, d2]
       1 ≤ m && m ≤ 12 && 1 ≤ d && d ≤ daysInMonth y m)
  | _ => false

/-- `body("Reason").trim().isLength({ min: 1, max: 500 })`: the trimmed
reason has between 1 and 500 characters. -/
def reasonOk (s : String) : Bool :=
  1 ≤ (jsTrim s).length && (jsTrim s).length ≤ 500

def patientIdMsg : String := "PatientId must be a positive integer"

def dateMsg : String := "AppointmentDate must be a valid date (YYYY-MM-DD)"

def timeMsg : String := "AppointmentTime must be in HH:MM format"

def reasonMsg : String := "Reason must be between 1 and 500 characters"

/-- Modelled from the spec for the accumulation behaviour: the four
chains are express-validator library code only invoked from `src/`; the
spec states "failures accumulate into one report, not short-circuit",
each with "a human-readable message and the field it concerns".  Each
rule itself is translated from the chain in `router.post("/")`. -/
def validateCreate (req : CreateRequest) : List FieldError :=
  (if isIntMin1 req.PatientId then [] else [⟨"PatientId", patientIdMsg⟩]) ++
  (if appointmentDateOk req.AppointmentDate then [] else [⟨"AppointmentDate", dateMsg⟩]) ++
  (if appointmentTimeOk req.AppointmentTime then [] else [⟨"AppointmentTime", timeMsg⟩]) ++
  (if reasonOk req.Reason then [] else [⟨"Reason", reasonMsg⟩])

/-! ## Storage queries

The handler binds the raw body/path text into the SQL placeholders.
`patients.id` and `appointments.patient_id` have INTEGER affinity, so
SQLite converts a bound text that is a decimal integer literal to its
numeric value before comparing; non-numeric text compares unequal to
every integer.  `appointment_date` / `appointment_time` keep their text
values and compare as strings. -/

/-- SQLite comparison of a bound text parameter against an INTEGER
column: the value it converts to, when the text is an (optionally
'+'-signed) decimal natural-number literal. -/
def sqliteTextToNat? (s : String) : Option Nat :=
  let core := match s.data with
    | '+' :: rest => rest
    | cs => cs
  if !core.isEmpty && core.all isDigitChar then some (decimalValue core) else none

/-- `SELECT id FROM patients WHERE id = ?` with the raw `PatientId`
text bound. -/
def findPatientByText (st : DBState) (pidText : String) : Option Patient :=
  st.patients.find? (fun p => sqliteTextToNat? pidText == some p.id)

/-- `SELECT id FROM appointments WHERE patient_id = ? AND
appointment_date = ? AND appointment_time = ?` with the raw body texts
bound. -/
def findConflictByText (st : DBState) (pidText date time : String) : Option Appointment :=
  st.appointments.find? (fun a =>
    sqliteTextToNat? pidText == some a.patient_id &&
      a.appointment_date == date && a.appointment_time == time)

/-! ## Create workflow -/

/-- The JSON responses `router.post("/")` can produce (the `catch`-path
500 of a storage fault is outside this fault-free storage model). -/
inductive CreateResponse where
  /-- 400 `{ error: "Validation failed", details: [...] }`. -/
  | validationFailed (details : List FieldError)
  /-- 404 `{ error: "Patient not found", message }`. -/
  | patientNotFound (message : String)
  /-- 409 `{ error: "Appointment conflict", message }`. -/
  | schedulingConflict (message : String)
  /-- 201 `{ AppointmentId, PatientId, AppointmentDate, AppointmentTime,
  Reason, Message }`; `PatientId` echoes the raw body text. -/
  | created (AppointmentId : Nat) (PatientId : String)
      (AppointmentDate AppointmentTime Reason Message : String)
deriving DecidableEq

/-- HTTP status code of each create response. -/
def statusOf : CreateResponse → Nat
  | .validationFailed _ => 400
  | .patientNotFound _ => 404
  | .schedulingConflict _ => 409
  | .created _ _ _ _ _ _ => 201

/-- One storage access of the create handler, with the texts it binds. -/
inductive StorageOp where
  | getPatient (pidText : String)
  | getConflict (pidText date time : String)
  | insertAppointment (pidText date time reason : String)
deriving DecidableEq

/-- Result of one create request: the JSON response, the storage state
after the request, and the storage accesses performed, in order. -/
structure CreateOutcome where
  response : CreateResponse
  state : DBState
  trace : List StorageOp
deriving DecidableEq

def conflictMsg : String := "Patient already has an appointment at this date and time"

def createdMsg : String := "Appointment created successfully"

/-- `router.post("/")`: validation gate, then patient-existence query,
then conflict query, then `INSERT` and the 201 response, stopping at
the first failure.  The stored `Reason` is the trimmed one (the
`.trim()` sanitizer rewrites `req.body.Reason` before the handler
destructures it); the stored `patient_id` is the integer SQLite's
INTEGER affinity converts the bound text to (the patient-found branch
guarantees the conversion succeeded, so the `getD 0` fallback is never
taken there). -/
def createAppointment (req : CreateRequest) (st : DBState) : CreateOutcome :=
  let errors := validateCreate req
  if errors.isEmpty then
    match findPatientByText st req.PatientId with
    | none =>
      ⟨.patientNotFound ("Patient with ID " ++ req.PatientId ++ " does not exist"),
        st, [.getPatient req.PatientId]⟩
    | some _ =>
      match findConflictByText st req.PatientId req.AppointmentDate req.AppointmentTime with
      | some _ =>
        ⟨.schedulingConflict conflictMsg, st,
          [.getPatient req.PatientId,
            .getConflict req.PatientId req.AppointmentDate req.AppointmentTime]⟩
      | none =>
        let newId := st.nextAppointmentId
        let newAppt : Appointment :=
          { id := newId
            patient_id := (sqliteTextToNat? req.PatientId).getD 0
            appointment_date := req.AppointmentDate
            appointment_time := req.AppointmentTime
            reason := jsTrim req.Reason
            status := "scheduled" }
        ⟨.created newId req.PatientId req.AppointmentDate req.AppointmentTime
            (jsTrim req.Reason) createdMsg,
          { st with
              appointments := st.appointments ++ [newAppt]
              nextAppointmentId := newId + 1 },
          [.getPatient req.PatientId,
            .getConflict req.PatientId req.AppointmentDate req.AppointmentTime,
            .insertAppointment req.PatientId req.AppointmentDate req.AppointmentTime
              (jsTrim req.Reason)]⟩
  else
    ⟨.validationFailed errors, st, []⟩

/-! ## Read path: list -/

/-- A row of the list query's `SELECT`: appointment columns joined with
the patient's display name. -/
structure ListRow where
  AppointmentId : Nat
  PatientId : Nat
  AppointmentDate : String
  AppointmentTime : String
  Reason : String
  status : String
  PatientName : String
deriving DecidableEq

/-- `FROM appointments a JOIN patients p ON a.patient_id = p.id`
(inner join; `patients.id` is the primary key, so `find?` picks the
row's unique patient). -/
def appointmentRows (st : DBState) : List ListRow :=
  st.appointments.filterMap (fun a =>
    (st.patients.find? (fun p => p.id == a.patient_id)).map (fun p =>
      ⟨a.id, a.patient_id, a.appointment_date, a.appointment_time,
        a.reason, a.status, p.name⟩))

/-- JavaScript truthiness of an optional query-parameter string:
`undefined` and `""` are falsy, any other string is truthy. -/
def truthy : Option String → Bool
  | none => false
  | some s => !s.data.isEmpty

/-- Byte-wise (BINARY collation) lexicographic ≤ on text values. -/
def charsLe : List Char → List Char → Bool
  | [], _ => true
  | _ :: _, [] => false
  | a :: as, b :: bs =>
    a.toNat < b.toNat || (a.toNat = b.toNat && charsLe as bs)

/-- `ORDER BY a.appointment_date, a.appointment_time`: date ascending,
then time ascending. -/
def rowLe (r1 r2 : ListRow) : Prop :=
  (charsLe r1.AppointmentDate.data r2.AppointmentDate.data &&
    (r1.AppointmentDate.data ≠ r2.AppointmentDate.data ||
      charsLe r1.AppointmentTime.data r2.AppointmentTime.data)) = true

instance : DecidableRel rowLe := fun r1 r2 => by unfold rowLe; infer_instance

/-- Does a row satisfy the `WHERE` conditions `router.get("/")` builds?
A condition is added only for a truthy parameter; conditions combine
with `AND`. -/
def rowMatches (patientId date : Option String) (r : ListRow) : Bool :=
  (if truthy patientId then sqliteTextToNat? (patientId.getD "") == some r.PatientId
   else true) &&
  (if truthy date then r.AppointmentDate == date.getD "" else true)

/-- `router.get("/")`: join, optional `WHERE` filters, `ORDER BY` date
then time. -/
def listAppointments (patientId date : Option String) (st : DBState) : List ListRow :=
  let rows := appointmentRows st
  let rows := if truthy patientId || truthy date
    then rows.filter (rowMatches patientId date)
    else rows
  List.insertionSort rowLe rows

/-! ## Read path: get by identifier -/

/-- A row of the single-appointment query: appointment columns joined
with the patient's name, email and phone. -/
structure DetailRow where
  AppointmentId : Nat
  PatientId : Nat
  AppointmentDate : String
  AppointmentTime : String
  Reason : String
  status : String
  PatientName : String
  PatientEmail : String
  PatientPhone : String
deriving DecidableEq

/-- The join of the `router.get("/:id")` query, before its `WHERE`. -/
def detailRows (st : DBState) : List DetailRow :=
  st.appointments.filterMap (fun a =>
    (st.patients.find? (fun p => p.id == a.patient_id)).map (fun p =>
      ⟨a.id, a.patient_id, a.appointment_date, a.appointment_time,
        a.reason, a.status, p.name, p.email, p.phone⟩))

/-- Responses of `router.get("/:id")` (fault-free storage). -/
inductive GetResponse where
  /-- 200 with the joined row. -/
  | found (row : DetailRow)
  /-- 404 `{ error: "Appointment not found", message }`. -/
  | notFound (message : String)
deriving DecidableEq

/-- `router.get("/:id")`: `req.params.id` is taken as opaque text and
bound unparsed into `WHERE a.id = ?`; `db.get` returns the first
matching row or `undefined`. -/
def getAppointmentById (idText : String) (st : DBState) : GetResponse :=
  match (detailRows st).find? (fun r => sqliteTextToNat? idText == some r.AppointmentId) with
  | some row => .found row
  | none => .notFound ("Appointment with ID " ++ idText ++ " does not exist")

/-! ## Schema initialization (`database/db.js`) -/

/-- The three sample patients of `initializeDatabase`, with the ids
AUTOINCREMENT assigns when the table is freshly created. -/
def samplePatients : List Patient :=
  [⟨1, "John Doe", "john@example.com", "555-0101"⟩,
   ⟨2, "Jane Smith", "jane@example.com", "555-0102"⟩,
   ⟨3, "Bob Johnson", "bob@example.com", "555-0103"⟩]

/-- The database file: `none` means a table does not exist yet. -/
structure DBFile where
  patientsTable : Option (List Patient)
  appointmentsTable : Option (List Appointment)
deriving DecidableEq

/-- `initializeDatabase`: `CREATE TABLE IF NOT EXISTS` for both tables
(an existing table is left as it is), then `SELECT COUNT(*) FROM
patients` and insertion of the three sample patients only when the
count is 0. -/
def initializeDatabase (f : DBFile) : DBFile :=
  let pts := f.patientsTable.getD []
  let appts := f.appointmentsTable.getD []
  let pts := if pts.length = 0 then samplePatients else pts
  ⟨some pts, some appts⟩

/-! ## Spec-side predicates for the time rule

`specTimeHHMM` transcribes the spec sentence "time: must match `HH:MM`
with HH in 00–23 and MM in 00–59" literally: exactly two digit
characters, a colon, two digit characters, with the stated numeric
bounds.  `specTimeHMM` is the additional single-digit-hour shape the
source regex admits through its optional `[0-1]?`. -/

/-- The spec's words: `HH:MM`, HH two digits in 00–23, MM two digits in
00–59. -/
def specTimeHHMM (s : String) : Bool :=
  match s.data with
  | [h0, h1, c, m0, m1] =>
    isDigitChar h0 && isDigitChar h1 && c.toNat = 58 &&
      isDigitChar m0 && isDigitChar m1 &&
      10 * digitVal h0 + digitVal h1 ≤ 23 &&
      10 * digitVal m0 + digitVal m1 ≤ 59
  | _ => false

/-- `H:MM` with a single-digit hour (necessarily 0–9) and MM in 00–59. -/
def specTimeHMM (s : String) : Bool :=
  match s.data with
  | [h, c, m0, m1] =>
    isDigitChar h && c.toNat = 58 && isDigitChar m0 && isDigitChar m1 &&
      10 * digitVal m0 + digitVal m1 ≤ 59
  | _ => false

/-! ## The conflict invariant -/

/-- Two appointment records booking the same (patient reference, date,
time) triple. -/
def SlotClash (a b : Appointment) : Prop :=
  a.patient_id = b.patient_id ∧ a.appointment_date = b.appointment_date ∧
    a.appointment_time = b.appointment_time

/-- No two records of the stored appointment list share a (patient
reference, date, time) triple. -/
def conflictFree (l : List Appointment) : Prop :=
  l.Pairwise (fun a b => ¬ SlotClash a b)

/-! ## Concrete fixtures used by the witness theorems -/

def reqW : CreateRequest := ⟨"1", "2024-12-25", "10:30", "Regular checkup"⟩

def stJohn : DBState := ⟨[⟨1, "John Doe", "john@example.com", "555-0101"⟩], [], 1⟩

def badReq : CreateRequest := ⟨"0", "not-a-date", "25:00", "   "⟩

def reqNoPatient : CreateRequest := ⟨"42", "2024-12-25", "10:30", "Follow-up"⟩

def stTwo : DBState :=
  ⟨[⟨1, "John Doe", "john@example.com", "555-0101"⟩],
   [⟨1, 1, "2024-12-26", "09:00", "Check A", "scheduled"⟩,
    ⟨2, 1, "2024-12-25", "10:30", "Check B", "scheduled"⟩], 3⟩

/-! ## Helper lemmas -/

theorem char_eq_of_toNat_eq {a b : Char} (h : a.toNat = b.toNat) : a = b :=
  Char.ext (UInt32.ext h)

theorem createAppointment_invalid (req : CreateRequest) (st : DBState)
    (h : validateCreate req ≠ []) :
    createAppointment req st = ⟨.validationFailed (validateCreate req), st, []⟩ := by
  have he : (validateCreate req).isEmpty = false := List.isEmpty_eq_false.mpr h
  simp [createAppointment, he]

theorem createAppointment_no_patient (req : CreateRequest) (st : DBState)
    (hv : validateCreate req = [])
    (hp : findPatientByText st req.PatientId = none) :
    createAppointment req st =
      ⟨.patientNotFound ("Patient with ID " ++ req.PatientId ++ " does not exist"),
        st, [.getPatient req.PatientId]⟩ := by
  simp [createAppointment, hv, hp]

theorem createAppointment_conflict (req : CreateRequest) (st : DBState)
    (hv : validateCreate req = []) (p : Patient)
    (hp : findPatientByText st req.PatientId = some p) (c : Appointment)
    (hc : findConflictByText st req.PatientId req.AppointmentDate req.AppointmentTime =
      some c) :
    createAppointment req st =
      ⟨.schedulingConflict conflictMsg, st,
        [.getPatient req.PatientId,
          .getConflict req.PatientId req.AppointmentDate req.AppointmentTime]⟩ := by
  simp [createAppointment, hv, hp, hc]

theorem createAppointment_success (req : CreateRequest) (st : DBState)
    (hv : validateCreate req = []) (p : Patient)
    (hp : findPatientByText st req.PatientId = some p)
    (hc : findConflictByText st req.PatientId req.AppointmentDate req.AppointmentTime =
      none) :
    createAppointment req st =
      ⟨.created st.nextAppointmentId req.PatientId req.AppointmentDate
          req.AppointmentTime (jsTrim req.Reason) createdMsg,
        ⟨st.patients,
          st.appointments ++
            [⟨st.nextAppointmentId, (sqliteTextToNat? req.PatientId).getD 0,
              req.AppointmentDate, req.AppointmentTime, jsTrim req.Reason, "scheduled"⟩],
          st.nextAppointmentId + 1⟩,
        [.getPatient req.PatientId,
          .getConflict req.PatientId req.AppointmentDate req.AppointmentTime,
          .insertAppointment req.PatientId req.AppointmentDate req.AppointmentTime
            (jsTrim req.Reason)]⟩ := by
  simp [createAppointment, hv, hp, hc]

theorem mem_validate_patientId (req : CreateRequest) :
    (⟨"PatientId", patientIdMsg⟩ : FieldError) ∈ validateCreate req ↔
      isIntMin1 req.PatientId = false := by
  by_cases h1 : isIntMin1 req.PatientId <;>
    by_cases h2 : appointmentDateOk req.AppointmentDate <;>
    by_cases h3 : appointmentTimeOk req.AppointmentTime <;>
    by_cases h4 : reasonOk req.Reason <;>
    simp [validateCreate, h1, h2, h3, h4, patientIdMsg, dateMsg, timeMsg, reasonMsg]

theorem mem_validate_date (req : CreateRequest) :
    (⟨"AppointmentDate", dateMsg⟩ : FieldError) ∈ validateCreate req ↔
      appointmentDateOk req.AppointmentDate = false := by
  by_cases h1 : isIntMin1 req.PatientId <;>
    by_cases h2 : appointmentDateOk req.AppointmentDate <;>
    by_cases h3 : appointmentTimeOk req.AppointmentTime <;>
    by_cases h4 : reasonOk req.Reason <;>
    simp [validateCreate, h1, h2, h3, h4, patientIdMsg, dateMsg, timeMsg, reasonMsg]

theorem mem_validate_time (req : CreateRequest) :
    (⟨"AppointmentTime", timeMsg⟩ : FieldError) ∈ validateCreate req ↔
      appointmentTimeOk req.AppointmentTime = false := by
  by_cases h1 : isIntMin1 req.PatientId <;>
    by_cases h2 : appointmentDateOk req.AppointmentDate <;>
    by_cases h3 : appointmentTimeOk req.AppointmentTime <;>
    by_cases h4 : reasonOk req.Reason <;>
    simp [validateCreate, h1, h2, h3, h4, patientIdMsg, dateMsg, timeMsg, reasonMsg]

theorem mem_validate_reason (req : CreateRequest) :
    (⟨"Reason", reasonMsg⟩ : FieldError) ∈ validateCreate req ↔
      reasonOk req.Reason = false := by
  by_cases h1 : isIntMin1 req.PatientId <;>
    by_cases h2 : appointmentDateOk req.AppointmentDate <;>
    by_cases h3 : appointmentTimeOk req.AppointmentTime <;>
    by_cases h4 : reasonOk req.Reason <;>
    simp [validateCreate, h1, h2, h3, h4, patientIdMsg, dateMsg, timeMsg, reasonMsg]

/-! ## Claims -/

/-- C1: the appointment-creation workflow executes its checks in this
exact order, stopping at the first failure: input validation (400,
validation failure), then the patient-existence query (404, message
carrying the requested identifier), then the conflict query on the same
(patient reference, date, time) triple (409), then the insert; only
after a successful insert does it return 201 with the fully populated
appointment (identifier, patient reference, date, time, reason) and a
success message.  Each branch's storage-access trace shows exactly the
queries executed up to the stopping point, in order. -/
theorem create_checks_order_and_success_response (req : CreateRequest) (st : DBState) :
    (validateCreate req ≠ [] →
      createAppointment req st = ⟨.validationFailed (validateCreate req), st, []⟩ ∧
        statusOf (createAppointment req st).response = 400) ∧
    (validateCreate req = [] → findPatientByText st req.PatientId = none →
      createAppointment req st =
          ⟨.patientNotFound ("Patient with ID " ++ req.PatientId ++ " does not exist"),
            st, [.getPatient req.PatientId]⟩ ∧
        statusOf (createAppointment req st).response = 404) ∧
    (∀ p c, validateCreate req = [] → findPatientByText st req.PatientId = some p →
      findConflictByText st req.PatientId req.AppointmentDate req.AppointmentTime =
        some c →
      createAppointment req st =
          ⟨.schedulingConflict conflictMsg, st,
            [.getPatient req.PatientId,
              .getConflict req.PatientId req.AppointmentDate req.AppointmentTime]⟩ ∧
        statusOf (createAppointment req st).response = 409) ∧
    (∀ p, validateCreate req = [] → findPatientByText st req.PatientId = some p →
      findConflictByText st req.PatientId req.AppointmentDate req.AppointmentTime =
        none →
      createAppointment req st =
          ⟨.created st.nextAppointmentId req.PatientId req.AppointmentDate
              req.AppointmentTime (jsTrim req.Reason) createdMsg,
            ⟨st.patients,
              st.appointments ++
                [⟨st.nextAppointmentId, (sqliteTextToNat? req.PatientId).getD 0,
                  req.AppointmentDate, req.AppointmentTime, jsTrim req.Reason,
                  "scheduled"⟩],
              st.nextAppointmentId + 1⟩,
            [.getPatient req.PatientId,
              .getConflict req.PatientId req.AppointmentDate req.AppointmentTime,
              .insertAppointment req.PatientId req.AppointmentDate req.AppointmentTime
                (jsTrim req.Reason)]⟩ ∧
        statusOf (createAppointment req st).response = 201) := by
  refine ⟨fun h => ?_, fun hv hp => ?_, fun p c hv hp hc => ?_, fun p hv hp hc => ?_⟩
  · have he := createAppointment_invalid req st h
    exact ⟨he, by rw [he]; rfl⟩
  · have he := createAppointment_no_patient req st hv hp
    exact ⟨he, by rw [he]; rfl⟩
  · have he := createAppointment_conflict req st hv p hp c hc
    exact ⟨he, by rw [he]; rfl⟩
  · have he := createAppointment_success req st hv p hp hc
    exact ⟨he, by rw [he]; rfl⟩

/-- Witness for C1 at the success branch: the README's example request
against a store holding only sample patient 1. -/
theorem create_checks_order_and_success_response_witness :
    createAppointment reqW stJohn =
      ⟨.created 1 "1" "2024-12-25" "10:30" "Regular checkup" createdMsg,
        ⟨stJohn.patients,
          [⟨1, 1, "2024-12-25", "10:30", "Regular checkup", "scheduled"⟩], 2⟩,
        [.getPatient "1", .getConflict "1" "2024-12-25" "10:30",
          .insertAppointment "1" "2024-12-25" "10:30" "Regular checkup"]⟩ ∧
      statusOf (createAppointment reqW stJohn).response = 201 := by
  have h := (create_checks_order_and_success_response reqW stJohn).2.2.2
    ⟨1, "John Doe", "john@example.com", "555-0101"⟩ (by decide) (by decide) (by decide)
  exact h

/-- C2: a create request with one or more of the four fields missing or
malformed gets a single validation-failure response whose details list
has one entry (message + field) for each violated rule — all of them,
not just the first — and the storage-access trace of such a request is
empty: the failure precedes any storage access. -/
theorem validation_failure_enumerates_all_and_precedes_storage
    (req : CreateRequest) (st : DBState) :
    (validateCreate req ≠ [] →
      (createAppointment req st).response = .validationFailed (validateCreate req) ∧
        (createAppointment req st).trace = [] ∧
        (createAppointment req st).state = st) ∧
    ((⟨"PatientId", patientIdMsg⟩ : FieldError) ∈ validateCreate req ↔
      isIntMin1 req.PatientId = false) ∧
    ((⟨"AppointmentDate", dateMsg⟩ : FieldError) ∈ validateCreate req ↔
      appointmentDateOk req.AppointmentDate = false) ∧
    ((⟨"AppointmentTime", timeMsg⟩ : FieldError) ∈ validateCreate req ↔
      appointmentTimeOk req.AppointmentTime = false) ∧
    ((⟨"Reason", reasonMsg⟩ : FieldError) ∈ validateCreate req ↔
      reasonOk req.Reason = false) := by
  refine ⟨fun h => ?_, mem_validate_patientId req, mem_validate_date req,
    mem_validate_time req, mem_validate_reason req⟩
  rw [createAppointment_invalid req st h]
  exact ⟨rfl, rfl, rfl⟩

/-- Witness for C2: a request violating all four rules produces the
four errors, touches no storage, and leaves the store unchanged. -/
theorem validation_failure_enumerates_all_witness :
    ((createAppointment badReq stJohn).response =
        .validationFailed (validateCreate badReq) ∧
      (createAppointment badReq stJohn).trace = [] ∧
      (createAppointment badReq stJohn).state = stJohn) ∧
    ((⟨"PatientId", patientIdMsg⟩ : FieldError) ∈ validateCreate badReq ∧
      (⟨"AppointmentDate", dateMsg⟩ : FieldError) ∈ validateCreate badReq ∧
      (⟨"AppointmentTime", timeMsg⟩ : FieldError) ∈ validateCreate badReq ∧
      (⟨"Reason", reasonMsg⟩ : FieldError) ∈ validateCreate badReq) := by
  have h := validation_failure_enumerates_all_and_precedes_storage badReq stJohn
  exact ⟨h.1 (by decide),
    h.2.1.mpr (by decide), h.2.2.1.mpr (by decide),
    h.2.2.2.1.mpr (by decide), h.2.2.2.2.mpr (by decide)⟩

/-- C3: a create request that fails at the patient-existence check or
at the conflict check creates no appointment record — the stored
appointment list after the request equals the one before it; in
particular, with validation passing and no patient matching the
request's reference, the response is the patient-not-found failure and
the appointment count is unchanged. -/
theorem failed_create_leaves_store_unchanged (req : CreateRequest) (st : DBState) :
    (∀ m, (createAppointment req st).response = .patientNotFound m →
      (createAppointment req st).state = st) ∧
    (∀ m, (createAppointment req st).response = .schedulingConflict m →
      (createAppointment req st).state = st) ∧
    (validateCreate req = [] → findPatientByText st req.PatientId = none →
      (createAppointment req st).response =
          .patientNotFound ("Patient with ID " ++ req.PatientId ++ " does not exist") ∧
        (createAppointment req st).state.appointments.length =
          st.appointments.length) := by
  by_cases hv : validateCreate req = []
  · cases hp : findPatientByText st req.PatientId with
    | none =>
      rw [createAppointment_no_patient req st hv hp]
      exact ⟨fun m _ => rfl, fun m h => CreateResponse.noConfusion h,
        fun _ _ => ⟨rfl, rfl⟩⟩
    | some p =>
      cases hc : findConflictByText st req.PatientId req.AppointmentDate
          req.AppointmentTime with
      | none =>
        rw [createAppointment_success req st hv p hp hc]
        exact ⟨fun m h => CreateResponse.noConfusion h,
          fun m h => CreateResponse.noConfusion h,
          fun _ hnone => Option.noConfusion hnone⟩
      | some c =>
        rw [createAppointment_conflict req st hv p hp c hc]
        exact ⟨fun m h => CreateResponse.noConfusion h, fun m _ => rfl,
          fun _ hnone => Option.noConfusion hnone⟩
  · rw [createAppointment_invalid req st hv]
    exact ⟨fun m h => CreateResponse.noConfusion h,
      fun m h => CreateResponse.noConfusion h, fun he => absurd he hv⟩

/-- Witness for C3: creating an appointment for absent patient 42
yields the patient-not-found response and leaves the (empty) stored
appointment list at length 0. -/
theorem failed_create_leaves_store_unchanged_witness :
    (createAppointment reqNoPatient stJohn).response =
        .patientNotFound "Patient with ID 42 does not exist" ∧
      (createAppointment reqNoPatient stJohn).state.appointments.length =
        stJohn.appointments.length :=
  (failed_create_leaves_store_unchanged reqNoPatient stJohn).2.2 (by decide) (by decide)

theorem find_patient_parse (st : DBState) (pidText : String) (p : Patient)
    (hp : findPatientByText st pidText = some p) :
    sqliteTextToNat? pidText = some p.id := by
  unfold findPatientByText at hp
  have h := List.find?_some hp
  simpa using h

/-- C4: in sequential execution no two stored appointments ever share a
(patient reference, date, time) triple: one create request preserves
the conflict-free invariant, and when a create request succeeds, the
identical request issued next yields the scheduling-conflict response
while the appointment count has increased by exactly one (the second
request adds nothing). -/
theorem conflict_invariant_and_sequential_double_booking
    (req : CreateRequest) (st : DBState) :
    (conflictFree st.appointments →
      conflictFree (createAppointment req st).state.appointments) ∧
    (∀ i pid d t rs m,
      (createAppointment req st).response = .created i pid d t rs m →
      (createAppointment req ((createAppointment req st).state)).response =
          .schedulingConflict conflictMsg ∧
        (createAppointment req
            ((createAppointment req st).state)).state.appointments.length =
          st.appointments.length + 1 ∧
        (createAppointment req st).state.appointments.length =
          st.appointments.length + 1) := by
  by_cases hv : validateCreate req = []
  · cases hp : findPatientByText st req.PatientId with
    | none =>
      rw [createAppointment_no_patient req st hv hp]
      exact ⟨fun hcf => hcf, fun i pid d t rs m h => CreateResponse.noConfusion h⟩
    | some p =>
      have hpid := find_patient_parse st req.PatientId p hp
      cases hc : findConflictByText st req.PatientId req.AppointmentDate
          req.AppointmentTime with
      | some c =>
        rw [createAppointment_conflict req st hv p hp c hc]
        exact ⟨fun hcf => hcf, fun i pid d t rs m h => CreateResponse.noConfusion h⟩
      | none =>
        rw [createAppointment_success req st hv p hp hc]
        constructor
        · intro hcf
          unfold conflictFree at hcf ⊢
          rw [List.pairwise_append]
          refine ⟨hcf, List.pairwise_singleton _ _, ?_⟩
          intro a ha b hb hclash
          have hb' : b = ⟨st.nextAppointmentId, (sqliteTextToNat? req.PatientId).getD 0,
              req.AppointmentDate, req.AppointmentTime, jsTrim req.Reason,
              "scheduled"⟩ := by simpa using hb
          subst hb'
          obtain ⟨hcp, hcd, hct⟩ := hclash
          simp [hpid] at hcp hcd hct
          have hnone : ∀ x ∈ st.appointments,
              sqliteTextToNat? req.PatientId = some x.patient_id →
                x.appointment_date = req.AppointmentDate →
                  ¬x.appointment_time = req.AppointmentTime := by
            simpa [findConflictByText] using hc
          exact hnone a ha (by rw [hpid, hcp]) hcd hct
        · intro i pid d t rs m _
          have hp1 : findPatientByText
              (⟨st.patients,
                st.appointments ++
                  [⟨st.nextAppointmentId, (sqliteTextToNat? req.PatientId).getD 0,
                    req.AppointmentDate, req.AppointmentTime, jsTrim req.Reason,
                    "scheduled"⟩],
                st.nextAppointmentId + 1⟩ : DBState) req.PatientId = some p := hp
          have hc1 : findConflictByText
              (⟨st.patients,
                st.appointments ++
                  [⟨st.nextAppointmentId, (sqliteTextToNat? req.PatientId).getD 0,
                    req.AppointmentDate, req.AppointmentTime, jsTrim req.Reason,
                    "scheduled"⟩],
                st.nextAppointmentId + 1⟩ : DBState)
              req.PatientId req.AppointmentDate req.AppointmentTime =
              some ⟨st.nextAppointmentId, (sqliteTextToNat? req.PatientId).getD 0,
                req.AppointmentDate, req.AppointmentTime, jsTrim req.Reason,
                "scheduled"⟩ := by
            unfold findConflictByText at hc ⊢
            rw [List.find?_append, hc]
            simp [hpid]
          rw [createAppointment_conflict req _ hv p hp1 _ hc1]
          exact ⟨rfl, by simp, by simp⟩
  · rw [createAppointment_invalid req st hv]
    exact ⟨fun hcf => hcf, fun i pid d t rs m h => CreateResponse.noConfusion h⟩

/-- Witness for C4: the same request issued twice against the
one-patient store succeeds then conflicts, with the count up by one. -/
theorem conflict_invariant_and_sequential_double_booking_witness :
    conflictFree ((createAppointment reqW stJohn).state.appointments) ∧
    ((createAppointment reqW ((createAppointment reqW stJohn).state)).response =
        .schedulingConflict conflictMsg ∧
      (createAppointment reqW
          ((createAppointment reqW stJohn).state)).state.appointments.length =
        stJohn.appointments.length + 1 ∧
      (createAppointment reqW stJohn).state.appointments.length =
        stJohn.appointments.length + 1) := by
  have h := conflict_invariant_and_sequential_double_booking reqW stJohn
  exact ⟨h.1 List.Pairwise.nil,
    h.2 1 "1" "2024-12-25" "10:30" "Regular checkup" createdMsg (by decide)⟩

/-- C8: the get-by-identifier operation takes the identifier as opaque
text and binds it unparsed into the lookup; when no joined row matches
(in particular whenever the text is not numeric, so that it compares
unequal to every stored integer key) the response is the not-found
failure echoing the identifier — by the response type, never a format
error — and when a row matches, that joined row (with the patient's
name, email and phone) is returned. -/
theorem get_by_id_lookup_or_notfound (idText : String) (st : DBState) :
    ((detailRows st).find?
        (fun r => sqliteTextToNat? idText == some r.AppointmentId) = none →
      getAppointmentById idText st =
        .notFound ("Appointment with ID " ++ idText ++ " does not exist")) ∧
    (∀ row, (detailRows st).find?
        (fun r => sqliteTextToNat? idText == some r.AppointmentId) = some row →
      getAppointmentById idText st = .found row) ∧
    (sqliteTextToNat? idText = none →
      getAppointmentById idText st =
        .notFound ("Appointment with ID " ++ idText ++ " does not exist")) := by
  refine ⟨fun h => ?_, fun row h => ?_, fun hparse => ?_⟩
  · simp [getAppointmentById, h]
  · simp [getAppointmentById, h]
  · have h : (detailRows st).find?
        (fun r => sqliteTextToNat? idText == some r.AppointmentId) = none := by
      rw [List.find?_eq_none]
      intro r _
      simp [hparse]
    simp [getAppointmentById, h]

/-- Witness for C8: the non-numeric path identifier `abc` yields the
not-found response with the text echoed. -/
theorem get_by_id_lookup_or_notfound_witness :
    getAppointmentById "abc" stTwo =
      .notFound "Appointment with ID abc does not exist" :=
  (get_by_id_lookup_or_notfound "abc" stTwo).2.2 (by decide)

/-- C9: schema initialization is idempotent — a second run on an
already-initialized store is a no-op (in particular it raises no error
and does not duplicate the sample patients) — a non-empty patient table
is never reseeded, and the sample patients are seeded exactly when the
patient table is absent or empty. -/
theorem initialize_database_idempotent (f : DBFile) :
    initializeDatabase (initializeDatabase f) = initializeDatabase f ∧
    (∀ ps, f.patientsTable = some ps → ps ≠ [] →
      (initializeDatabase f).patientsTable = some ps) ∧
    ((f.patientsTable = none ∨ f.patientsTable = some []) →
      (initializeDatabase f).patientsTable = some samplePatients) := by
  obtain ⟨pt, ap⟩ := f
  refine ⟨?_, ?_, ?_⟩
  · cases pt with
    | none => simp [initializeDatabase, samplePatients]
    | some l =>
      cases l with
      | nil => simp [initializeDatabase, samplePatients]
      | cons x xs => simp [initializeDatabase, samplePatients]
  · intro ps hps hne
    cases hps
    have : ps.length ≠ 0 := by simpa using hne
    simp [initializeDatabase, this]
  · intro h
    rcases h with h | h <;> cases h <;> simp [initializeDatabase]

/-- Witness for C9: initializing an empty file seeds the three sample
patients, and a second initialization changes nothing. -/
theorem initialize_database_idempotent_witness :
    initializeDatabase (initializeDatabase ⟨none, none⟩) =
        initializeDatabase (⟨none, none⟩ : DBFile) ∧
      (initializeDatabase (⟨none, none⟩ : DBFile)).patientsTable =
        some samplePatients := by
  have h := initialize_database_idempotent ⟨none, none⟩
  exact ⟨h.1, h.2.2 (Or.inl rfl)⟩

/-- C10: in the list operation a query parameter bound to the empty
string is treated exactly as an omitted parameter (JavaScript
truthiness makes `""` skip its `WHERE` condition), for every store
state and every value of the other parameter. -/
theorem empty_query_param_ignored (st : DBState) (q : Option String) :
    listAppointments (some "") q st = listAppointments none q st ∧
    listAppointments q (some "") st = listAppointments q none st := by
  have h0 : truthy (some "") = false := by decide
  have h1 : truthy none = false := rfl
  have hfun1 : rowMatches (some "") q = rowMatches none q := by
    funext r
    simp [rowMatches, h0, h1]
  have hfun2 : rowMatches q (some "") = rowMatches q none := by
    funext r
    simp [rowMatches, h0, h1]
  constructor
  · by_cases hq : truthy q <;>
      simp [listAppointments, h0, h1, hq, hfun1]
  · by_cases hq : truthy q <;>
      simp [listAppointments, h0, h1, hq, hfun2]

theorem charsLe_refl (cs : List Char) : charsLe cs cs = true := by
  induction cs with
  | nil => rfl
  | cons a as ih => simp [charsLe, ih]

theorem charsLe_total (a b : List Char) : charsLe a b = true ∨ charsLe b a = true := by
  induction a generalizing b with
  | nil => exact Or.inl rfl
  | cons x xs ih =>
    cases b with
    | nil => exact Or.inr rfl
    | cons y ys =>
      rcases Nat.lt_trichotomy x.toNat y.toNat with h | h | h
      · left
        simp [charsLe]
        omega
      · rcases ih ys with h2 | h2
        · left
          simp [charsLe, h2]
          omega
        · right
          simp [charsLe, h2]
          omega
      · right
        simp [charsLe]
        omega

theorem charsLe_trans {a b c : List Char} (h1 : charsLe a b = true)
    (h2 : charsLe b c = true) : charsLe a c = true := by
  induction a generalizing b c with
  | nil => rfl
  | cons x xs ih =>
    cases b with
    | nil => exact absurd h1 (by simp [charsLe])
    | cons y ys =>
      cases c with
      | nil => exact absurd h2 (by simp [charsLe])
      | cons z zs =>
        simp [charsLe] at h1 h2 ⊢
        rcases h1 with h1 | ⟨hxy, hr1⟩
        · rcases h2 with h2 | ⟨hyz, hr2⟩
          · exact Or.inl (by omega)
          · exact Or.inl (by omega)
        · rcases h2 with h2 | ⟨hyz, hr2⟩
          · exact Or.inl (by omega)
          · exact Or.inr ⟨by omega, ih hr1 hr2⟩

theorem charsLe_antisymm {a b : List Char} (h1 : charsLe a b = true)
    (h2 : charsLe b a = true) : a = b := by
  induction a generalizing b with
  | nil =>
    cases b with
    | nil => rfl
    | cons y ys => exact absurd h2 (by simp [charsLe])
  | cons x xs ih =>
    cases b with
    | nil => exact absurd h1 (by simp [charsLe])
    | cons y ys =>
      simp [charsLe] at h1 h2
      rcases h1 with h1 | ⟨hxy, hr1⟩
      · rcases h2 with h2 | ⟨hyx, hr2⟩
        · omega
        · omega
      · rcases h2 with h2 | ⟨hyx, hr2⟩
        · omega
        · rw [char_eq_of_toNat_eq hxy, ih hr1 hr2]

theorem rowLe_total (r1 r2 : ListRow) : rowLe r1 r2 ∨ rowLe r2 r1 := by
  unfold rowLe
  by_cases hd : r1.AppointmentDate.data = r2.AppointmentDate.data
  · rcases charsLe_total r1.AppointmentTime.data r2.AppointmentTime.data with h | h
    · left
      simp [hd, charsLe_refl, h]
    · right
      simp [hd, charsLe_refl, h]
  · rcases charsLe_total r1.AppointmentDate.data r2.AppointmentDate.data with h | h
    · left
      simp [hd, h]
    · right
      simp [Ne.symm hd, h]

theorem rowLe_trans (r1 r2 r3 : ListRow) (h1 : rowLe r1 r2) (h2 : rowLe r2 r3) :
    rowLe r1 r3 := by
  unfold rowLe at h1 h2 ⊢
  simp at h1 h2 ⊢
  obtain ⟨ha, hb⟩ := h1
  obtain ⟨hc, hd⟩ := h2
  refine ⟨charsLe_trans ha hc, ?_⟩
  by_cases he : r1.AppointmentDate.data = r3.AppointmentDate.data
  · have h12 : r1.AppointmentDate.data = r2.AppointmentDate.data :=
      charsLe_antisymm ha (by rw [he]; exact hc)
    have h23 : r2.AppointmentDate.data = r3.AppointmentDate.data := by rw [← h12, he]
    rcases hb with hb | hb
    · exact absurd h12 hb
    · rcases hd with hd | hd
      · exact absurd h23 hd
      · exact Or.inr (charsLe_trans hb hd)
  · exact Or.inl he

/-- C7: the list operation returns exactly the stored appointments
joined with their patient's display name that match every supplied
filter (exact patient-reference match and/or exact date match, combined
with AND; an omitted filter constrains nothing), and the returned list
is sorted by date ascending then time ascending (`rowLe`). -/
theorem list_rows_filter_and_order (patientId date : Option String) (st : DBState) :
    List.Sorted rowLe (listAppointments patientId date st) ∧
    (∀ r, r ∈ listAppointments patientId date st ↔
      (r ∈ appointmentRows st ∧ rowMatches patientId date r = true)) ∧
    (∀ a ∈ st.appointments, ∀ p,
      st.patients.find? (fun q => q.id == a.patient_id) = some p →
      rowMatches patientId date
          ⟨a.id, a.patient_id, a.appointment_date, a.appointment_time,
            a.reason, a.status, p.name⟩ = true →
      (⟨a.id, a.patient_id, a.appointment_date, a.appointment_time,
          a.reason, a.status, p.name⟩ : ListRow) ∈
        listAppointments patientId date st) := by
  have hmem : ∀ r, r ∈ listAppointments patientId date st ↔
      (r ∈ appointmentRows st ∧ rowMatches patientId date r = true) := by
    intro r
    by_cases hp : truthy patientId <;> by_cases hd : truthy date <;>
      simp [listAppointments, List.mem_insertionSort, List.mem_filter,
        rowMatches, hp, hd]
  refine ⟨@List.sorted_insertionSort ListRow rowLe _ ⟨rowLe_total⟩ ⟨rowLe_trans⟩ _,
    hmem, ?_⟩
  intro a ha p hp hm
  refine (hmem _).mpr ⟨?_, hm⟩
  unfold appointmentRows
  rw [List.mem_filterMap]
  exact ⟨a, ha, by rw [hp]; rfl⟩

/-- Witness for C7: with `patientId=1&date=2024-12-25` against a
two-appointment store, the matching joined row is returned. -/
theorem list_rows_filter_and_order_witness :
    (⟨2, 1, "2024-12-25", "10:30", "Check B", "scheduled", "John Doe"⟩ : ListRow) ∈
      listAppointments (some "1") (some "2024-12-25") stTwo := by
  have h := (list_rows_filter_and_order (some "1") (some "2024-12-25") stTwo).2.1
    ⟨2, 1, "2024-12-25", "10:30", "Check B", "scheduled", "John Doe"⟩
  exact h.mpr ⟨by decide, by decide⟩

/-- C5 counterexample: the source regex admits `"9:30"`, which is not
of the two-digit `HH:MM` shape, so "passes validation iff of shape
`HH:MM` with HH in 00–23 and MM in 00–59" fails as stated. -/
theorem time_pattern_hhmm_counterexample :
    appointmentTimeOk "9:30" = true ∧ specTimeHHMM "9:30" = false := by decide

/-- C5 (amended): the time field passes validation iff it is of shape
`HH:MM` with HH two digits in 00–23 and MM two digits in 00–59, or of
the single-digit-hour shape `H:MM` with H in 0–9 and MM in 00–59 (the
regex's `[0-1]?` makes the leading hour digit optional). -/
theorem time_validation_iff_pattern_amended (s : String) :
    appointmentTimeOk s = true ↔ (specTimeHHMM s || specTimeHMM s) = true := by
  unfold appointmentTimeOk specTimeHHMM specTimeHMM
  rcases hcs : s.data with _ | ⟨c1, _ | ⟨c2, _ | ⟨c3, _ | ⟨c4, _ | ⟨c5, _ | ⟨c6, rest⟩⟩⟩⟩⟩⟩
  · simp [timeRegexChars]
  · simp [timeRegexChars]
  · simp [timeRegexChars]
  · simp [timeRegexChars]
  · simp [timeRegexChars, hourOkTwo, minutesOk, isDigitChar, digitVal]
    omega
  · simp [timeRegexChars, hourOkTwo, minutesOk, isDigitChar, digitVal]
    omega
  · simp [timeRegexChars]

/-- Witness for C5's amended theorem: the single-digit-hour time
`"9:30"` passes validation. -/
theorem time_validation_iff_pattern_amended_witness :
    appointmentTimeOk "9:30" = true :=
  (time_validation_iff_pattern_amended "9:30").mpr (by decide)

/-- C6: the date field of a create request passes the Validation Gate
iff it is a valid calendar date in `YYYY-MM-DD` form
(`appointmentDateOk`, modelled from the spec because the `isDate`
routine is dependency code not present in the repository). -/
theorem date_field_passes_iff_calendar_date (req : CreateRequest) :
    (⟨"AppointmentDate", dateMsg⟩ : FieldError) ∉ validateCreate req ↔
      appointmentDateOk req.AppointmentDate = true := by
  have h := not_congr (mem_validate_date req)
  simpa using h

/-- Witness for C6: the README's example date `2024-12-25` passes, so
no date error is reported for the example request. -/
theorem date_field_passes_iff_calendar_date_witness :
    (⟨"AppointmentDate", dateMsg⟩ : FieldError) ∉ validateCreate reqW :=
  (date_field_passes_iff_calendar_date reqW).mpr (by decide)

end ApptAPI
